import Mathlib

/-!
Shallow embedding of the audio core of the hex-grid repository
(`src/soundManager.ts` and the numeric utilities of `src/store.ts`).

Numbers are modelled as rationals (`ℚ`) for all parameter arithmetic and
scheduling times; oscillator frequencies, which involve `2^x` for
non-integer `x`, are modelled as reals (`ℝ`).  Web Audio `AudioParam`
automation is modelled as an explicit list of timestamped events.
-/

namespace HexGrid

/-! ## store.ts numeric utilities -/

/-- `clamp` from `src/store.ts`: `Math.max(minimum, Math.min(maximum, value))`. -/
def clamp (value minimum maximum : ℚ) : ℚ :=
  max minimum (min maximum value)

/-- `scaleNumericValue` from `src/store.ts`: linearly remaps `fromValue` from
`fromRange` into `toRange`, clamping the input into `fromRange` first. -/
def scaleNumericValue (fromValue : ℚ) (fromRange toRange : ℚ × ℚ) : ℚ :=
  let scalingFactor := (toRange.2 - toRange.1) / (fromRange.2 - fromRange.1)
  let valueInRange := min fromRange.2 (max fromRange.1 fromValue) - fromRange.1
  toRange.1 + (valueInRange * scalingFactor)

/-- Truncation toward zero of a rational, as used by the JavaScript `%`
remainder operator. -/
def ratTrunc (q : ℚ) : ℤ :=
  if 0 ≤ q then ⌊q⌋ else ⌈q⌉

/-- The JavaScript remainder operator `a % b` on numbers:
`a - b * trunc(a / b)`. -/
def jsRem (a b : ℚ) : ℚ :=
  a - b * (ratTrunc (a / b) : ℚ)

/-! ## Automation-event model of `AudioParam` -/

/-- One scheduled automation event on an `AudioParam`, with value type `α`
and rational timestamps. -/
inductive AEvent (α : Type) where
  | setValue (v : α) (t : ℚ)
  | linearRamp (v : α) (t : ℚ)
  | setTarget (v : α) (t : ℚ) (timeConstant : ℚ)
deriving DecidableEq

/-- The timestamp of an automation event. -/
def AEvent.time {α : Type} : AEvent α → ℚ
  | .setValue _ t => t
  | .linearRamp _ t => t
  | .setTarget _ t _ => t

/-- An `AudioParam`: a default value plus the chronological list of scheduled
automation events written onto it. -/
structure AParam (α : Type) where
  defaultValue : α
  events : List (AEvent α)
deriving DecidableEq

/-- `param.setValueAtTime(v, t)`. -/
def AParam.setValueAtTime {α : Type} (p : AParam α) (v : α) (t : ℚ) : AParam α :=
  { p with events := p.events ++ [.setValue v t] }

/-- `param.linearRampToValueAtTime(v, t)`. -/
def AParam.linearRampToValueAtTime {α : Type} (p : AParam α) (v : α) (t : ℚ) : AParam α :=
  { p with events := p.events ++ [.linearRamp v t] }

/-- `param.setTargetAtTime(v, t, timeConstant)`. -/
def AParam.setTargetAtTime {α : Type} (p : AParam α) (v : α) (t : ℚ) (tc : ℚ) : AParam α :=
  { p with events := p.events ++ [.setTarget v t tc] }

/-- `param.cancelScheduledValues(t)`: removes every scheduled event whose
time is greater than or equal to `t`. -/
def AParam.cancelScheduledValues {α : Type} (p : AParam α) (t : ℚ) : AParam α :=
  { p with events := p.events.filter (fun e => decide (e.time < t)) }

/-- The timestamps of the `linearRampToValueAtTime` events of a parameter, in
order of scheduling. -/
def AParam.rampTimes {α : Type} (p : AParam α) : List ℚ :=
  p.events.filterMap (fun e =>
    match e with
    | .linearRamp _ t => some t
    | _ => none)

/-- A fresh gain parameter (a `GainNode`'s `gain` defaults to 1). -/
def freshGainParam : AParam ℚ := ⟨1, []⟩

/-- A fresh detune parameter (an `OscillatorNode`'s `detune` defaults to 0). -/
def freshDetuneParam : AParam ℚ := ⟨0, []⟩

/-! ## Hue mapper (`cascadeHueToAudioNodes`, the pure part) -/

/-- The pure computation inside `SoundManager.cascadeHueToAudioNodes`:
from the stored hue, the `(redSquareComponent, greenSawComponent,
blueSineComponent)` waveform gain weights. -/
def cascadeHueComponents (hue : ℚ) : ℚ × ℚ × ℚ :=
  if jsRem hue 120 = 0 then
    if hue = 120 then (0, 1, 0)
    else if hue = 240 then (0, 0, 1)
    else if hue = 0 ∨ hue = 360 then (1, 0, 0)
    else (0, 0, 0)
  else if jsRem hue 60 = 0 then
    if hue = 60 then (1/2, 1/2, 0)
    else if hue = 180 then (0, 1/2, 1/2)
    else if hue = 300 then (1/2, 0, 1/2)
    else (0, 0, 0)
  else
    if hue < 120 then
      (scaleNumericValue hue (0, 120) (1, 0),
       scaleNumericValue hue (0, 120) (0, 1),
       0)
    else if hue < 240 then
      (0,
       scaleNumericValue hue (120, 240) (1, 0),
       scaleNumericValue hue (120, 240) (0, 1))
    else if hue < 360 then
      (scaleNumericValue hue (240, 360) (0, 1),
       0,
       scaleNumericValue hue (240, 360) (1, 0))
    else (0, 0, 0)

/-! ## Chord tables (`soundManager.ts` top-level constants) -/

/-- A 4-tuple of semitone offsets `[root, third, fifth, seventh]`. -/
structure ChordSemitones where
  root : ℚ
  third : ℚ
  fifth : ℚ
  seventh : ℚ
deriving DecidableEq

/-- `MajorTriadSemitones = [0, 4, 7, 0]`. -/
def MajorTriadSemitones : ChordSemitones := ⟨0, 4, 7, 0⟩

/-- `MinorTriadSemitones = [0, 3, 7, 0]`. -/
def MinorTriadSemitones : ChordSemitones := ⟨0, 3, 7, 0⟩

/-- `DiminishedTriadSemitones = [0, 3, 6, 0]`. -/
def DiminishedTriadSemitones : ChordSemitones := ⟨0, 3, 6, 0⟩

/-- `DominantSeventhSemitones = [0, 4, 7, 10]`. -/
def DominantSeventhSemitones : ChordSemitones := ⟨0, 4, 7, 10⟩

/-- `MajorSeventhSemitones = [0, 4, 7, 11]`. -/
def MajorSeventhSemitones : ChordSemitones := ⟨0, 4, 7, 11⟩

/-- `MinorSeventhSemitones = [0, 3, 7, 10]`. -/
def MinorSeventhSemitones : ChordSemitones := ⟨0, 3, 7, 10⟩

/-- `DefaultSemitones = MajorTriadSemitones`. -/
def DefaultSemitones : ChordSemitones := MajorTriadSemitones

/-- One entry of the `ChordTones` table: the scale-degree semitone count of the
chord root together with the chord-specific interval semitones. -/
structure ChordDef where
  rootSemitones : ℚ
  tones : ChordSemitones
deriving DecidableEq

/-- `ChordTones` entry for `I Maj`. -/
def chordIMaj : ChordDef := ⟨0, MajorTriadSemitones⟩

/-- `ChordTones` entry for `II min`. -/
def chordIIMin : ChordDef := ⟨2, MinorTriadSemitones⟩

/-- `ChordTones` entry for `III min`. -/
def chordIIIMin : ChordDef := ⟨4, MinorTriadSemitones⟩

/-- `ChordTones` entry for `IV Maj`. -/
def chordIVMaj : ChordDef := ⟨5, MajorTriadSemitones⟩

/-- `ChordTones` entry for `V Maj`. -/
def chordVMaj : ChordDef := ⟨7, MajorTriadSemitones⟩

/-- `ChordTones` entry for `VI min`. -/
def chordVIMin : ChordDef := ⟨9, MinorTriadSemitones⟩

/-- `ChordTones` entry for `bVII Maj`. -/
def chordBVIIMaj : ChordDef := ⟨10, MajorTriadSemitones⟩

/-- `ChordTones` entry for `I7`. -/
def chordI7 : ChordDef := ⟨0, DominantSeventhSemitones⟩

/-- `ChordTones` entry for `IV7`. -/
def chordIV7 : ChordDef := ⟨5, DominantSeventhSemitones⟩

/-- `ChordTones` entry for `V7`. -/
def chordV7 : ChordDef := ⟨7, DominantSeventhSemitones⟩

/-- `ChordTones` entry for `II min7`. -/
def chordIIMin7 : ChordDef := ⟨2, MinorSeventhSemitones⟩

/-- `ChordTones` entry for `III min7`. -/
def chordIIIMin7 : ChordDef := ⟨4, MinorSeventhSemitones⟩

/-- `ChordTones` entry for `IV Maj7`. -/
def chordIVMaj7 : ChordDef := ⟨5, MajorSeventhSemitones⟩

/-- The `ChordProgressions` table with each chord name resolved through
`ChordTones`, listed in the key order of the source object:
Awesome-1..6, Fifties, Circle, Three-Chord-1..5, Pachelbel, Royal,
Royal-Extended, MontyWard. -/
def ChordProgressions : List (List ChordDef) :=
  [ [chordIMaj, chordVMaj, chordVIMin, chordIVMaj],
    [chordVMaj, chordVIMin, chordIVMaj, chordIMaj],
    [chordVIMin, chordIVMaj, chordIMaj, chordVMaj],
    [chordIVMaj, chordIMaj, chordVMaj, chordVIMin],
    [chordIMaj, chordVMaj, chordBVIIMaj, chordIVMaj],
    [chordIMaj, chordIVMaj, chordBVIIMaj, chordIVMaj],
    [chordIMaj, chordVIMin, chordIVMaj, chordVMaj],
    [chordVIMin, chordIIMin, chordVMaj, chordIMaj],
    [chordVMaj, chordIMaj, chordIVMaj],
    [chordIMaj, chordVMaj, chordIVMaj, chordVMaj],
    [chordVMaj, chordIVMaj, chordIMaj],
    [chordIMaj, chordVIMin, chordVMaj],
    [chordIMaj, chordIIMin, chordVMaj],
    [chordIMaj, chordVMaj, chordVIMin, chordIIIMin, chordIVMaj, chordIMaj, chordIVMaj, chordVMaj],
    [chordIVMaj7, chordV7, chordIIIMin7, chordVIMin],
    [chordIVMaj7, chordV7, chordIIIMin7, chordVIMin, chordIIMin7, chordV7, chordIMaj],
    [chordI7, chordIV7, chordIIMin7, chordV7] ]

/-- `AllProgressions`: the progressions in key order (the source keeps the key
strings; only the chord lists they resolve to matter to the scheduler). -/
def AllProgressions : List (List ChordDef) := ChordProgressions

/-! ## Frequency oscillator chains -/

/-- A triple of per-waveform nodes (square / sawtooth / sine), mirroring the
`WaveformNodes<NodeType>` interface. -/
structure WaveformNodes (α : Type) where
  square : α
  sawtooth : α
  sine : α

/-- Apply a function to each of the three waveform-specific nodes. -/
def WaveformNodes.map {α β : Type} (f : α → β) (w : WaveformNodes α) : WaveformNodes β :=
  ⟨f w.square, f w.sawtooth, f w.sine⟩

/-- The automation-relevant parameters of a `FrequencyOscillatorChain`:
each oscillator's `frequency` and `detune` parameter, each waveform gain
node's `gain` parameter, and the chain output gain node's `gain` parameter. -/
structure FrequencyOscillatorChain where
  frequencyParams : WaveformNodes (AParam ℝ)
  detuneParams : WaveformNodes (AParam ℚ)
  oscillatorGains : WaveformNodes (AParam ℚ)
  output : AParam ℚ

/-- `createOscillators` + `createOscillatorGains` + `createOscillatorsMixer` +
the chain output node, from `createOscillatorStructure`: fresh oscillators at
440 Hz, detuned by `100 * semitones` cents when `semitones ≠ 0`, unit waveform
gains, and a fresh (gain 1) output node. -/
def createOscillatorStructure (semitones : ℚ) (now : ℚ) : FrequencyOscillatorChain :=
  let freshFrequency : AParam ℝ := ⟨440, []⟩
  let freshDetune : AParam ℚ := freshDetuneParam
  let detuneAfter : AParam ℚ :=
    if semitones ≠ 0 then freshDetune.setValueAtTime (100 * semitones) now else freshDetune
  { frequencyParams := ⟨freshFrequency.setValueAtTime 440 now,
                        freshFrequency.setValueAtTime 440 now,
                        freshFrequency.setValueAtTime 440 now⟩,
    detuneParams := ⟨detuneAfter, detuneAfter, detuneAfter⟩,
    oscillatorGains := ⟨freshGainParam.setValueAtTime 1 now,
                        freshGainParam.setValueAtTime 1 now,
                        freshGainParam.setValueAtTime 1 now⟩,
    output := freshGainParam }

/-- `assignWaveformFrequency` restricted to a single non-null chain. -/
def assignWaveformFrequencyChain (frequency : ℝ) (atTime : ℚ) (cancelSchedules : Bool)
    (c : FrequencyOscillatorChain) : FrequencyOscillatorChain :=
  let base :=
    if cancelSchedules then c.frequencyParams.map (fun p => p.cancelScheduledValues atTime)
    else c.frequencyParams
  { c with frequencyParams := base.map (fun p => p.setValueAtTime frequency atTime) }

/-- `assignWaveformFrequency` on an optional chain (nulls are skipped). -/
def assignWaveformFrequency (frequency : ℝ) (atTime : ℚ) (cancelSchedules : Bool)
    (c : Option FrequencyOscillatorChain) : Option FrequencyOscillatorChain :=
  c.map (assignWaveformFrequencyChain frequency atTime cancelSchedules)

/-- `assignWaveformDetune` restricted to a single non-null chain. -/
def assignWaveformDetuneChain (detune : ℚ) (atTime : ℚ) (cancelSchedules : Bool)
    (c : FrequencyOscillatorChain) : FrequencyOscillatorChain :=
  let base :=
    if cancelSchedules then c.detuneParams.map (fun p => p.cancelScheduledValues atTime)
    else c.detuneParams
  { c with detuneParams := base.map (fun p => p.setValueAtTime detune atTime) }

/-- `assignWaveformDetune` on an optional chain (nulls are skipped). -/
def assignWaveformDetune (detune : ℚ) (atTime : ℚ) (cancelSchedules : Bool)
    (c : Option FrequencyOscillatorChain) : Option FrequencyOscillatorChain :=
  c.map (assignWaveformDetuneChain detune atTime cancelSchedules)

/-- `assignWaveformGains` restricted to a single non-null chain. -/
def assignWaveformGainsChain (square sawtooth sine : ℚ) (atTime : ℚ)
    (c : FrequencyOscillatorChain) : FrequencyOscillatorChain :=
  { c with oscillatorGains :=
      ⟨c.oscillatorGains.square.setValueAtTime square atTime,
       c.oscillatorGains.sawtooth.setValueAtTime sawtooth atTime,
       c.oscillatorGains.sine.setValueAtTime sine atTime⟩ }

/-- `assignWaveformGains` on an optional chain (nulls are skipped). -/
def assignWaveformGains (square sawtooth sine : ℚ) (atTime : ℚ)
    (c : Option FrequencyOscillatorChain) : Option FrequencyOscillatorChain :=
  c.map (assignWaveformGainsChain square sawtooth sine atTime)

/-! ## Wet/dry crossfade, LFO chain, reverb chain -/

/-- `setWetDryBalance` from `soundManager.ts`: with `HALF_PI = 0.5 * Math.PI`,
writes `wetGain * HALF_PI` on the wet node and `(1.0 - wetGain) * HALF_PI` on
the dry node at `atTime`.  Returns the updated `(wet, dry)` pair. -/
noncomputable def setWetDryBalance (wetNode dryNode : AParam ℝ) (wetGain : ℚ) (atTime : ℚ) :
    AParam ℝ × AParam ℝ :=
  let HALF_PI : ℝ := 0.5 * Real.pi
  (wetNode.setValueAtTime ((wetGain : ℝ) * HALF_PI) atTime,
   dryNode.setValueAtTime ((1 - (wetGain : ℝ)) * HALF_PI) atTime)

/-- The automation-relevant parameters of the `LfoChain`. -/
structure LfoChainModel where
  oscFrequency : AParam ℝ
  oscillatorGain : AParam ℝ
  constantGain : AParam ℝ
  lfoOutputGain : AParam ℝ

/-- `createLfoStructure`: a sine oscillator set to `frequency`, an on-gain and
an off-gain balanced through `setWetDryBalance`, and a final output gain. -/
noncomputable def createLfoStructure (frequency gain now : ℚ) : LfoChainModel :=
  let oscFrequency : AParam ℝ := (⟨440, []⟩ : AParam ℝ).setValueAtTime (frequency : ℝ) now
  let balanced := setWetDryBalance ⟨1, []⟩ ⟨1, []⟩ gain now
  { oscFrequency := oscFrequency,
    oscillatorGain := balanced.1,
    constantGain := balanced.2,
    lfoOutputGain := ⟨1, []⟩ }

/-- The automation-relevant parameters of the `ReverbChain`, plus whether the
asynchronously fetched impulse-response buffer has been applied yet. -/
structure ReverbChainModel where
  wetGain : AParam ℝ
  dryGain : AParam ℝ
  hasImpulseBuffer : Bool

/-- `createReverbStructure`: a convolver without a buffer yet, and wet/dry
gains balanced through `setWetDryBalance`. -/
noncomputable def createReverbStructure (gain now : ℚ) : ReverbChainModel :=
  let balanced := setWetDryBalance ⟨1, []⟩ ⟨1, []⟩ gain now
  { wetGain := balanced.1,
    dryGain := balanced.2,
    hasImpulseBuffer := false }

/-! ## The SoundManager state -/

/-- The state of a `SoundManager` instance: the stored parameter fields, the
optional audio graph pieces, plus an audio-clock reading, a running flag for
the context, and counters of the nodes/connections created so far (for graph
topology comparisons). -/
structure SoundManager where
  hue : ℚ
  saturation : ℚ
  lightness : ℚ
  structureInitialized : Bool
  hasAudioContext : Bool
  currentTime : ℚ
  contextRunning : Bool
  oscillatorsStarted : Bool
  rootFrequencyChain : Option FrequencyOscillatorChain
  thirdFrequencyChain : Option FrequencyOscillatorChain
  fifthFrequencyChain : Option FrequencyOscillatorChain
  seventhFrequencyChain : Option FrequencyOscillatorChain
  startStopGainNode : Option (AParam ℝ)
  lfoChain : Option LfoChainModel
  reverbChain : Option ReverbChainModel
  lfoFrequency : ℚ
  lfoGain : ℚ
  reverbGain : ℚ
  overallVolumeGainNode : Option (AParam ℝ)
  overallVolumeGain : ℚ
  isChordProgressionEnabled : Bool
  nextChordProgressionEndTime : ℚ
  chordDurationSeconds : ℚ
  nodesCreated : ℕ
  connectionsCreated : ℕ

/-- The `SoundManager` constructor: stores the initial hue/saturation/lightness
and leaves every other field at its declared initializer. -/
def SoundManager.mkInitial (hue saturation lightness : ℚ) : SoundManager where
  hue := hue
  saturation := saturation
  lightness := lightness
  structureInitialized := false
  hasAudioContext := false
  currentTime := 0
  contextRunning := false
  oscillatorsStarted := false
  rootFrequencyChain := none
  thirdFrequencyChain := none
  fifthFrequencyChain := none
  seventhFrequencyChain := none
  startStopGainNode := none
  lfoChain := none
  reverbChain := none
  lfoFrequency := 15
  lfoGain := 1/4
  reverbGain := 0
  overallVolumeGainNode := none
  overallVolumeGain := 1/10
  isChordProgressionEnabled := false
  nextChordProgressionEndTime := 0
  chordDurationSeconds := 2
  nodesCreated := 0
  connectionsCreated := 0

/-- Node count created by one `createOscillatorStructure` call:
3 oscillators, 3 waveform gains, 1 merger, 1 output gain. -/
def oscillatorStructureNodeCount : ℕ := 8

/-- Connection count made by one `createOscillatorStructure` call:
3 oscillator-to-gain, 3 gain-to-merger, 1 merger-to-output. -/
def oscillatorStructureConnectionCount : ℕ := 7

/-- Node count created by `createLfoStructure`: oscillator, oscillator gain,
constant source, constant gain, merger, output gain. -/
def lfoStructureNodeCount : ℕ := 6

/-- Connection count made by `createLfoStructure`. -/
def lfoStructureConnectionCount : ℕ := 5

/-- Node count created by `createReverbStructure`: convolver, wet gain,
dry gain, output merger. -/
def reverbStructureNodeCount : ℕ := 4

/-- Connection count made by `createReverbStructure` (including wiring the
input into the convolver and the dry gain). -/
def reverbStructureConnectionCount : ℕ := 5

/-- `initializeAudioStructure`: guarded by `structureInitialized`; otherwise
creates the four frequency chains (with the `DefaultSemitones` detunes), the
chain mixer, the start/stop gain node, the LFO chain, the reverb chain and the
overall volume gain node (set to the stored volume), then marks the structure
initialized.  The wavetable and impulse-response fetches are asynchronous and
have not landed at return time. -/
noncomputable def SoundManager.initializeAudioStructure (s : SoundManager) : SoundManager :=
  if s.structureInitialized then s
  else
    let s := if s.hasAudioContext then s else { s with hasAudioContext := true }
    let now := s.currentTime
    { s with
      rootFrequencyChain := some (createOscillatorStructure DefaultSemitones.root now),
      thirdFrequencyChain := some (createOscillatorStructure DefaultSemitones.third now),
      fifthFrequencyChain := some (createOscillatorStructure DefaultSemitones.fifth now),
      seventhFrequencyChain := some (createOscillatorStructure DefaultSemitones.seventh now),
      startStopGainNode := some (⟨1, []⟩ : AParam ℝ),
      lfoChain := some (createLfoStructure s.lfoFrequency s.lfoGain now),
      reverbChain := some (createReverbStructure s.reverbGain now),
      overallVolumeGainNode :=
        some ((⟨1, []⟩ : AParam ℝ).setValueAtTime (s.overallVolumeGain : ℝ) now),
      structureInitialized := true,
      nodesCreated := s.nodesCreated + 4 * oscillatorStructureNodeCount
        + 1 + 1 + lfoStructureNodeCount + reverbStructureNodeCount + 1,
      connectionsCreated := s.connectionsCreated + 4 * oscillatorStructureConnectionCount
        + 4 + 1 + lfoStructureConnectionCount + 1 + reverbStructureConnectionCount + 1 + 1 }

/-- `cascadeHueToAudioNodes`: no-op without an audio context; otherwise writes
the hue weight components onto the waveform gains of all four chains. -/
def SoundManager.cascadeHueToAudioNodes (s : SoundManager) : SoundManager :=
  if ¬s.hasAudioContext then s
  else
    let comps := cascadeHueComponents s.hue
    { s with
      rootFrequencyChain :=
        assignWaveformGains comps.1 comps.2.1 comps.2.2 s.currentTime s.rootFrequencyChain,
      thirdFrequencyChain :=
        assignWaveformGains comps.1 comps.2.1 comps.2.2 s.currentTime s.thirdFrequencyChain,
      fifthFrequencyChain :=
        assignWaveformGains comps.1 comps.2.1 comps.2.2 s.currentTime s.fifthFrequencyChain,
      seventhFrequencyChain :=
        assignWaveformGains comps.1 comps.2.1 comps.2.2 s.currentTime s.seventhFrequencyChain }

/-- `cascadeSaturationToAudioNodes`: no-op without an audio context; otherwise
writes `clamp(saturation, 0, 100) / 100` onto the output gain of the third,
fifth and seventh chains (only). -/
def SoundManager.cascadeSaturationToAudioNodes (s : SoundManager) : SoundManager :=
  if ¬s.hasAudioContext then s
  else
    let chordGains := clamp s.saturation 0 100 / 100
    { s with
      thirdFrequencyChain := s.thirdFrequencyChain.map
        (fun c => { c with output := c.output.setValueAtTime chordGains s.currentTime }),
      fifthFrequencyChain := s.fifthFrequencyChain.map
        (fun c => { c with output := c.output.setValueAtTime chordGains s.currentTime }),
      seventhFrequencyChain := s.seventhFrequencyChain.map
        (fun c => { c with output := c.output.setValueAtTime chordGains s.currentTime }) }

/-- The pure computation inside `cascadeLightnessToAudioNodes`: the semitone
distance `scaleNumericValue(clamp(lightness, 0, 100), [0, 100], [-25, 25])`. -/
def semitoneDistance (lightness : ℚ) : ℚ :=
  scaleNumericValue (clamp lightness 0 100) (0, 100) (-25, 25)

/-- The frequency computed by `cascadeLightnessToAudioNodes`:
`Math.pow(2, semitoneDistance / 12) * 440`. -/
noncomputable def frequencyOfLightness (lightness : ℚ) : ℝ :=
  (2 : ℝ) ^ ((semitoneDistance lightness : ℝ) / 12) * 440

/-- `cascadeLightnessToAudioNodes`: no-op without an audio context; otherwise
writes the computed frequency onto all oscillators of all four chains, without
cancelling scheduled values. -/
noncomputable def SoundManager.cascadeLightnessToAudioNodes (s : SoundManager) : SoundManager :=
  if ¬s.hasAudioContext then s
  else
    let frequency := frequencyOfLightness s.lightness
    { s with
      rootFrequencyChain :=
        assignWaveformFrequency frequency s.currentTime false s.rootFrequencyChain,
      thirdFrequencyChain :=
        assignWaveformFrequency frequency s.currentTime false s.thirdFrequencyChain,
      fifthFrequencyChain :=
        assignWaveformFrequency frequency s.currentTime false s.fifthFrequencyChain,
      seventhFrequencyChain :=
        assignWaveformFrequency frequency s.currentTime false s.seventhFrequencyChain }

/-! ## The chord scheduler (`queueChordProgression`) -/

/-- The loop-carried state of the scheduling loop in `queueChordProgression`:
the start/stop gate parameter, the four optional chains, and the running
`currentTime` cursor. -/
structure SchedAcc where
  gate : AParam ℝ
  root : Option FrequencyOscillatorChain
  third : Option FrequencyOscillatorChain
  fifth : Option FrequencyOscillatorChain
  seventh : Option FrequencyOscillatorChain
  time : ℚ

/-- One iteration of the `for (let chord of chordsList)` loop in
`queueChordProgression`: ramp the gate to 1 at the chord start, write the
chord detunes, advance by the chord duration, schedule the gate decay toward
0, then advance past the decay and the rest. -/
def scheduleChordStep (dur decay rest : ℚ) (acc : SchedAcc) (chord : ChordDef) : SchedAcc :=
  let gate := acc.gate.linearRampToValueAtTime 1 acc.time
  let root := assignWaveformDetune ((chord.rootSemitones + chord.tones.root) * 100)
    acc.time false acc.root
  let third := assignWaveformDetune ((chord.rootSemitones + chord.tones.third) * 100)
    acc.time false acc.third
  let fifth := assignWaveformDetune ((chord.rootSemitones + chord.tones.fifth) * 100)
    acc.time false acc.fifth
  let seventh := assignWaveformDetune ((chord.rootSemitones + chord.tones.seventh) * 100)
    acc.time false acc.seventh
  let t1 := acc.time + dur
  let gate := gate.setTargetAtTime 0 t1 decay
  ⟨gate, root, third, fifth, seventh, t1 + decay + rest⟩

/-- The progression selection of `queueChordProgression`: the chord list at
the chosen index, doubled end-to-end when it has at most 3 chords. -/
def selectedChords (progressionIndex : ℕ) : List ChordDef :=
  let chordsList0 := AllProgressions.getD (progressionIndex % AllProgressions.length) []
  if chordsList0.length ≤ 3 then chordsList0 ++ chordsList0 else chordsList0

/-- `queueChordProgression`.  The uniformly random progression pick is made
explicit as the `progressionIndex` argument (reduced into range exactly as
`Math.floor(Math.random() * AllProgressions.length)` guarantees).  The
returned `Bool` records whether a `setTimeout` re-arming the lookahead timer
was issued. -/
def SoundManager.queueChordProgression (s : SoundManager) (progressionIndex : ℕ) :
    SoundManager × Bool :=
  match s.startStopGainNode with
  | none => (s, false)
  | some gate =>
    if ¬s.hasAudioContext ∨ ¬s.structureInitialized then (s, false)
    else if ¬s.isChordProgressionEnabled then
      -- Restore everything to normal and do not re-queue.
      let gate := (gate.cancelScheduledValues s.currentTime).setValueAtTime 1 s.currentTime
      ({ s with
          startStopGainNode := some gate,
          rootFrequencyChain := assignWaveformDetune (DefaultSemitones.root * 100)
            s.currentTime true s.rootFrequencyChain,
          thirdFrequencyChain := assignWaveformDetune (DefaultSemitones.third * 100)
            s.currentTime true s.thirdFrequencyChain,
          fifthFrequencyChain := assignWaveformDetune (DefaultSemitones.fifth * 100)
            s.currentTime true s.fifthFrequencyChain,
          seventhFrequencyChain := assignWaveformDetune (DefaultSemitones.seventh * 100)
            s.currentTime true s.seventhFrequencyChain }, false)
    else
      let LOOKAHEAD_SEC : ℚ := 1/4
      let CHORD_DECAY_SEC := s.chordDurationSeconds / 8
      let REST_SEC := s.chordDurationSeconds / 16
      if s.nextChordProgressionEndTime - LOOKAHEAD_SEC > s.currentTime then
        (s, true)
      else
        let chordsList := selectedChords progressionIndex
        let startTime := max s.nextChordProgressionEndTime s.currentTime
        let result := chordsList.foldl
          (scheduleChordStep s.chordDurationSeconds CHORD_DECAY_SEC REST_SEC)
          ⟨gate, s.rootFrequencyChain, s.thirdFrequencyChain, s.fifthFrequencyChain,
           s.seventhFrequencyChain, startTime⟩
        let endTime := result.time + s.chordDurationSeconds / 2
        ({ s with
            startStopGainNode := some result.gate,
            rootFrequencyChain := result.root,
            thirdFrequencyChain := result.third,
            fifthFrequencyChain := result.fifth,
            seventhFrequencyChain := result.seventh,
            nextChordProgressionEndTime := endTime }, true)

/-! ## Public operations -/

/-- `play()`: when no audio context exists yet, creates it, builds the graph,
cascades the stored hue/lightness/saturation, and starts the oscillators;
in every case resumes the context and runs one scheduler check. -/
noncomputable def SoundManager.play (s : SoundManager) (progressionIndex : ℕ) : SoundManager :=
  let s :=
    if ¬s.hasAudioContext then
      let s := { s with hasAudioContext := true }
      let s := s.initializeAudioStructure
      let s := s.cascadeHueToAudioNodes
      let s := s.cascadeLightnessToAudioNodes
      let s := s.cascadeSaturationToAudioNodes
      { s with oscillatorsStarted := true }
    else s
  let s := { s with contextRunning := true }
  (s.queueChordProgression progressionIndex).1

/-- `pause()`: suspends the context when it exists; nothing else. -/
def SoundManager.pause (s : SoundManager) : SoundManager :=
  if s.hasAudioContext then { s with contextRunning := false } else s

/-- `changeHue`: stores `hue % 360` (JavaScript remainder) and cascades. -/
def SoundManager.changeHue (s : SoundManager) (hue : ℚ) : SoundManager :=
  SoundManager.cascadeHueToAudioNodes { s with hue := jsRem hue 360 }

/-- `changeSaturation`: stores the raw saturation and cascades. -/
def SoundManager.changeSaturation (s : SoundManager) (saturation : ℚ) : SoundManager :=
  SoundManager.cascadeSaturationToAudioNodes { s with saturation := saturation }

/-- `changeLightness`: stores the raw lightness and cascades. -/
noncomputable def SoundManager.changeLightness (s : SoundManager) (lightness : ℚ) : SoundManager :=
  SoundManager.cascadeLightnessToAudioNodes { s with lightness := lightness }

/-- `changeVolume`: stores `clamp(volume, 0, 1)`; when the graph exists,
writes it onto the overall volume gain node. -/
def SoundManager.changeVolume (s : SoundManager) (volume : ℚ) : SoundManager :=
  let s := { s with overallVolumeGain := clamp volume 0 1 }
  match s.overallVolumeGainNode with
  | none => s
  | some node =>
    if ¬s.hasAudioContext ∨ ¬s.structureInitialized then s
    else
      let node := node.setValueAtTime (s.overallVolumeGain : ℝ) s.currentTime
      { s with overallVolumeGainNode := some node }

/-- `changeReverbIntensity`: stores `clamp(intensity, 0, 1)`; when the graph
exists, rebalances the reverb wet/dry gains. -/
noncomputable def SoundManager.changeReverbIntensity (s : SoundManager) (intensity : ℚ) :
    SoundManager :=
  let s := { s with reverbGain := clamp intensity 0 1 }
  match s.reverbChain with
  | none => s
  | some chain =>
    if ¬s.hasAudioContext ∨ ¬s.structureInitialized then s
    else
      let balanced := setWetDryBalance chain.wetGain chain.dryGain s.reverbGain s.currentTime
      let chain := { chain with wetGain := balanced.1, dryGain := balanced.2 }
      { s with reverbChain := some chain }

/-- `changeLfoIntensity`: stores `clamp(intensity, 0, 1)`; when the graph
exists, rebalances the LFO on/off gains. -/
noncomputable def SoundManager.changeLfoIntensity (s : SoundManager) (intensity : ℚ) :
    SoundManager :=
  let s := { s with lfoGain := clamp intensity 0 1 }
  match s.lfoChain with
  | none => s
  | some chain =>
    if ¬s.hasAudioContext ∨ ¬s.structureInitialized then s
    else
      let balanced := setWetDryBalance chain.oscillatorGain chain.constantGain
        s.lfoGain s.currentTime
      let chain := { chain with oscillatorGain := balanced.1, constantGain := balanced.2 }
      { s with lfoChain := some chain }

/-- `changeLfoFrequency`: stores `clamp(frequency, 1, 30)`; when the graph
exists, writes it onto the LFO oscillator frequency. -/
def SoundManager.changeLfoFrequency (s : SoundManager) (frequency : ℚ) : SoundManager :=
  let s := { s with lfoFrequency := clamp frequency 1 30 }
  match s.lfoChain with
  | none => s
  | some chain =>
    if ¬s.hasAudioContext ∨ ¬s.structureInitialized then s
    else
      let freqParam := chain.oscFrequency.setValueAtTime (s.lfoFrequency : ℝ) s.currentTime
      let chain := { chain with oscFrequency := freqParam }
      { s with lfoChain := some chain }

/-- `changeChordProgression`: on a material change, stores the flag and runs
one scheduler check. -/
def SoundManager.changeChordProgression (s : SoundManager) (isEnabled : Bool)
    (progressionIndex : ℕ) : SoundManager :=
  if s.isChordProgressionEnabled ≠ isEnabled then
    (SoundManager.queueChordProgression
      { s with isChordProgressionEnabled := isEnabled } progressionIndex).1
  else s

/-- `changeChordDuration`: stores `clamp(durationSeconds, 0.25, 10)`. -/
def SoundManager.changeChordDuration (s : SoundManager) (durationSeconds : ℚ) : SoundManager :=
  { s with chordDurationSeconds := clamp durationSeconds (1/4) 10 }

/-! ## Observers used to state properties -/

/-- The value of the most recently scheduled value-carrying automation event
of a parameter, if any. -/
def AParam.lastScheduledValue {α : Type} (p : AParam α) : Option α :=
  match p.events.getLast? with
  | some (.setValue v _) => some v
  | some (.linearRamp v _) => some v
  | _ => none

/-- The graph-topology view of a `SoundManager` state: how many nodes and
connections have been created and which graph pieces exist.  Automation event
lists are deliberately not part of this view. -/
structure GraphTopology where
  nodesCreated : ℕ
  connectionsCreated : ℕ
  hasAudioContext : Bool
  structureInitialized : Bool
  oscillatorsStarted : Bool
  hasRoot : Bool
  hasThird : Bool
  hasFifth : Bool
  hasSeventh : Bool
  hasStartStopGain : Bool
  hasLfoChain : Bool
  hasReverbChain : Bool
  hasOverallVolume : Bool
deriving DecidableEq

/-- Project a `SoundManager` state onto its graph topology. -/
def SoundManager.topology (s : SoundManager) : GraphTopology where
  nodesCreated := s.nodesCreated
  connectionsCreated := s.connectionsCreated
  hasAudioContext := s.hasAudioContext
  structureInitialized := s.structureInitialized
  oscillatorsStarted := s.oscillatorsStarted
  hasRoot := s.rootFrequencyChain.isSome
  hasThird := s.thirdFrequencyChain.isSome
  hasFifth := s.fifthFrequencyChain.isSome
  hasSeventh := s.seventhFrequencyChain.isSome
  hasStartStopGain := s.startStopGainNode.isSome
  hasLfoChain := s.lfoChain.isSome
  hasReverbChain := s.reverbChain.isSome
  hasOverallVolume := s.overallVolumeGainNode.isSome

/-- The parts of a frequency chain that the chord scheduler never touches:
oscillator frequencies, waveform gains and the chain output gain. -/
def chainNonDetune (c : FrequencyOscillatorChain) :
    WaveformNodes (AParam ℝ) × WaveformNodes (AParam ℚ) × AParam ℚ :=
  (c.frequencyParams, c.oscillatorGains, c.output)

/-- A concrete initialized state (graph pieces present, chord progression
disabled), used to exercise theorems on concrete inputs. -/
def sampleState : SoundManager :=
  { SoundManager.mkInitial 300 50 40 with
    hasAudioContext := true
    structureInitialized := true
    rootFrequencyChain := some (createOscillatorStructure 0 0)
    thirdFrequencyChain := some (createOscillatorStructure 4 0)
    fifthFrequencyChain := some (createOscillatorStructure 7 0)
    seventhFrequencyChain := some (createOscillatorStructure 0 0)
    startStopGainNode := some ⟨1, []⟩
    overallVolumeGainNode := some ⟨1, []⟩ }

/-- The concrete sample state with chord progression enabled. -/
def sampleStateOn : SoundManager :=
  { sampleState with isChordProgressionEnabled := true }

/-! # Theorems -/

/-- C5: for every saturation `sat` passed to `changeSaturation`, the root
voice's output gain is never modified by the saturation path (and starts as
the fresh unit gain with no automation), while the output gain written to each
of the third, fifth, and seventh voices equals `clamp(sat, 0, 100) / 100`. -/
theorem changeSaturation_root_untouched_chord_gains (s : SoundManager) (sat : ℚ) :
    ((s.changeSaturation sat).rootFrequencyChain = s.rootFrequencyChain)
    ∧ (∀ semitones now, (createOscillatorStructure semitones now).output = freshGainParam)
    ∧ freshGainParam.defaultValue = 1 ∧ freshGainParam.events = []
    ∧ (s.hasAudioContext = true →
        (s.changeSaturation sat).thirdFrequencyChain
          = s.thirdFrequencyChain.map (fun c =>
              { c with output := c.output.setValueAtTime (clamp sat 0 100 / 100) s.currentTime })
        ∧ (s.changeSaturation sat).fifthFrequencyChain
          = s.fifthFrequencyChain.map (fun c =>
              { c with output := c.output.setValueAtTime (clamp sat 0 100 / 100) s.currentTime })
        ∧ (s.changeSaturation sat).seventhFrequencyChain
          = s.seventhFrequencyChain.map (fun c =>
              { c with output := c.output.setValueAtTime (clamp sat 0 100 / 100) s.currentTime })) := by
  refine ⟨?_, fun semitones now => rfl, rfl, rfl, fun hctx => ?_⟩
  · by_cases h : s.hasAudioContext <;>
      simp [SoundManager.changeSaturation, SoundManager.cascadeSaturationToAudioNodes, h]
  · refine ⟨?_, ?_, ?_⟩ <;>
      simp [SoundManager.changeSaturation, SoundManager.cascadeSaturationToAudioNodes, hctx]

/-- Witness for C5 at the concrete sample state with saturation 150. -/
theorem changeSaturation_root_untouched_chord_gains_witness :
    sampleState.hasAudioContext = true
    ∧ (sampleState.changeSaturation 150).thirdFrequencyChain
        = sampleState.thirdFrequencyChain.map (fun c =>
            { c with output := c.output.setValueAtTime (clamp 150 0 100 / 100) 0 }) :=
  ⟨rfl, ((changeSaturation_root_untouched_chord_gains sampleState 150).2.2.2.2 rfl).1⟩

/-- For nonnegative arguments, JS truncation is the floor. -/
lemma ratTrunc_of_nonneg (q : ℚ) (h : 0 ≤ q) : ratTrunc q = ⌊q⌋ := if_pos h

/-- For `0 ≤ h < 360`, `h % 120 = 0` exactly at 0, 120 and 240. -/
lemma jsRem_120_eq_zero_iff (h : ℚ) (h0 : 0 ≤ h) (h360 : h < 360) :
    jsRem h 120 = 0 ↔ h = 0 ∨ h = 120 ∨ h = 240 := by
  constructor
  · intro hz
    have hdiv : (0 : ℚ) ≤ h / 120 := by positivity
    have hq : h = 120 * ((⌊h / 120⌋ : ℤ) : ℚ) := by
      have := hz
      unfold jsRem at this
      rw [ratTrunc_of_nonneg _ hdiv] at this
      linarith
    have hk0 : 0 ≤ ⌊h / 120⌋ := Int.floor_nonneg.2 hdiv
    have hk3 : ⌊h / 120⌋ < 3 := by
      have hlt : h / 120 < ((3 : ℤ) : ℚ) := by push_cast; linarith
      exact Int.floor_lt.2 hlt
    set k := ⌊h / 120⌋ with hk
    interval_cases k <;> rw [hq] <;> norm_num
  · rintro (rfl | rfl | rfl) <;> norm_num [jsRem, ratTrunc]

/-- For `0 ≤ h < 360`, `h % 60 = 0` exactly at the six multiples of 60. -/
lemma jsRem_60_eq_zero_iff (h : ℚ) (h0 : 0 ≤ h) (h360 : h < 360) :
    jsRem h 60 = 0 ↔ h = 0 ∨ h = 60 ∨ h = 120 ∨ h = 180 ∨ h = 240 ∨ h = 300 := by
  constructor
  · intro hz
    have hdiv : (0 : ℚ) ≤ h / 60 := by positivity
    have hq : h = 60 * ((⌊h / 60⌋ : ℤ) : ℚ) := by
      have := hz
      unfold jsRem at this
      rw [ratTrunc_of_nonneg _ hdiv] at this
      linarith
    have hk0 : 0 ≤ ⌊h / 60⌋ := Int.floor_nonneg.2 hdiv
    have hk6 : ⌊h / 60⌋ < 6 := by
      have hlt : h / 60 < ((6 : ℤ) : ℚ) := by push_cast; linarith
      exact Int.floor_lt.2 hlt
    set k := ⌊h / 60⌋ with hk
    interval_cases k <;> rw [hq] <;> norm_num
  · rintro (rfl | rfl | rfl | rfl | rfl | rfl) <;> norm_num [jsRem, ratTrunc]

/-- `scaleNumericValue` into the target range `(0, 1)` stays within `[0, 1]`
whenever the source range is proper. -/
lemma scaleNumericValue_up_bounds (x a b : ℚ) (hab : a < b) :
    0 ≤ scaleNumericValue x (a, b) (0, 1) ∧ scaleNumericValue x (a, b) (0, 1) ≤ 1 := by
  unfold scaleNumericValue
  simp only
  have hba : (0 : ℚ) < b - a := sub_pos.2 hab
  have h1 : a ≤ min b (max a x) := le_min (le_of_lt hab) (le_max_left _ _)
  have h2 : min b (max a x) ≤ b := min_le_left _ _
  constructor
  · have := mul_nonneg (sub_nonneg.2 h1) (le_of_lt (show (0:ℚ) < (1 - 0) / (b - a) by positivity))
    linarith
  · have hstep : (min b (max a x) - a) * ((1 - 0) / (b - a))
        ≤ (b - a) * ((1 - 0) / (b - a)) := by
      apply mul_le_mul_of_nonneg_right (by linarith)
      positivity
    have hone : (b - a) * ((1 - 0) / (b - a)) = 1 := by field_simp
    linarith

/-- `scaleNumericValue` into the target range `(1, 0)` stays within `[0, 1]`
whenever the source range is proper. -/
lemma scaleNumericValue_down_bounds (x a b : ℚ) (hab : a < b) :
    0 ≤ scaleNumericValue x (a, b) (1, 0) ∧ scaleNumericValue x (a, b) (1, 0) ≤ 1 := by
  unfold scaleNumericValue
  simp only
  have hba : (0 : ℚ) < b - a := sub_pos.2 hab
  have h1 : a ≤ min b (max a x) := le_min (le_of_lt hab) (le_max_left _ _)
  have h2 : min b (max a x) ≤ b := min_le_left _ _
  constructor
  · have hdiv : (min b (max a x) - a) / (b - a) ≤ 1 := (div_le_one hba).2 (by linarith)
    have hexp : (min b (max a x) - a) * ((0 - 1) / (b - a))
        = -((min b (max a x) - a) / (b - a)) := by ring
    rw [hexp]
    linarith
  · have hnneg : (0 : ℚ) ≤ (min b (max a x) - a) * (1 / (b - a)) :=
      mul_nonneg (sub_nonneg.2 h1) (le_of_lt (by positivity))
    have hexp : (min b (max a x) - a) * ((0 - 1) / (b - a))
        = -((min b (max a x) - a) * (1 / (b - a))) := by ring
    rw [hexp]
    linarith

/-- C3: for every hue in `[0, 360)` the three waveform weights computed by
the hue mapper are each in `[0, 1]`; at 0/120/240 exactly one weight is 1 and
the other two are 0; at 60/180/300 exactly two weights are 1/2 and the third
is 0. -/
theorem hueMapper_weights :
    (∀ h : ℚ, 0 ≤ h → h < 360 →
      (0 ≤ (cascadeHueComponents h).1 ∧ (cascadeHueComponents h).1 ≤ 1)
      ∧ (0 ≤ (cascadeHueComponents h).2.1 ∧ (cascadeHueComponents h).2.1 ≤ 1)
      ∧ (0 ≤ (cascadeHueComponents h).2.2 ∧ (cascadeHueComponents h).2.2 ≤ 1))
    ∧ cascadeHueComponents 0 = (1, 0, 0)
    ∧ cascadeHueComponents 120 = (0, 1, 0)
    ∧ cascadeHueComponents 240 = (0, 0, 1)
    ∧ cascadeHueComponents 60 = (1/2, 1/2, 0)
    ∧ cascadeHueComponents 180 = (0, 1/2, 1/2)
    ∧ cascadeHueComponents 300 = (1/2, 0, 1/2) := by
  refine ⟨?_, by norm_num [cascadeHueComponents, jsRem, ratTrunc],
    by norm_num [cascadeHueComponents, jsRem, ratTrunc],
    by norm_num [cascadeHueComponents, jsRem, ratTrunc],
    by norm_num [cascadeHueComponents, jsRem, ratTrunc],
    by norm_num [cascadeHueComponents, jsRem, ratTrunc],
    by norm_num [cascadeHueComponents, jsRem, ratTrunc]⟩
  intro h h0 h360
  by_cases h120 : jsRem h 120 = 0
  · rcases (jsRem_120_eq_zero_iff h h0 h360).1 h120 with rfl | rfl | rfl <;>
      norm_num [cascadeHueComponents, jsRem, ratTrunc]
  · by_cases h60 : jsRem h 60 = 0
    · rcases (jsRem_60_eq_zero_iff h h0 h360).1 h60 with rfl | rfl | rfl | rfl | rfl | rfl
      · exact absurd (show jsRem (0 : ℚ) 120 = 0 by norm_num [jsRem, ratTrunc]) h120
      · norm_num [cascadeHueComponents, jsRem, ratTrunc]
      · exact absurd (show jsRem (120 : ℚ) 120 = 0 by norm_num [jsRem, ratTrunc]) h120
      · norm_num [cascadeHueComponents, jsRem, ratTrunc]
      · exact absurd (show jsRem (240 : ℚ) 120 = 0 by norm_num [jsRem, ratTrunc]) h120
      · norm_num [cascadeHueComponents, jsRem, ratTrunc]
    · have heval : cascadeHueComponents h =
          if h < 120 then
            (scaleNumericValue h (0, 120) (1, 0), scaleNumericValue h (0, 120) (0, 1), 0)
          else if h < 240 then
            (0, scaleNumericValue h (120, 240) (1, 0), scaleNumericValue h (120, 240) (0, 1))
          else if h < 360 then
            (scaleNumericValue h (240, 360) (0, 1), 0, scaleNumericValue h (240, 360) (1, 0))
          else (0, 0, 0) := by
        unfold cascadeHueComponents
        rw [if_neg h120, if_neg h60]
      rw [heval]
      by_cases hA : h < 120
      · rw [if_pos hA]
        have hd := scaleNumericValue_down_bounds h 0 120 (by norm_num)
        have hu := scaleNumericValue_up_bounds h 0 120 (by norm_num)
        exact ⟨⟨hd.1, hd.2⟩, ⟨hu.1, hu.2⟩, by norm_num⟩
      · rw [if_neg hA]
        by_cases hB : h < 240
        · rw [if_pos hB]
          have hd := scaleNumericValue_down_bounds h 120 240 (by norm_num)
          have hu := scaleNumericValue_up_bounds h 120 240 (by norm_num)
          exact ⟨by norm_num, ⟨hd.1, hd.2⟩, ⟨hu.1, hu.2⟩⟩
        · rw [if_neg hB, if_pos h360]
          have hd := scaleNumericValue_down_bounds h 240 360 (by norm_num)
          have hu := scaleNumericValue_up_bounds h 240 360 (by norm_num)
          exact ⟨⟨hu.1, hu.2⟩, by norm_num, ⟨hd.1, hd.2⟩⟩

/-- Witness for C3 at the concrete hue 45. -/
theorem hueMapper_weights_witness :
    (0 : ℚ) ≤ 45 ∧ (45 : ℚ) < 360
    ∧ ((0 ≤ (cascadeHueComponents 45).1 ∧ (cascadeHueComponents 45).1 ≤ 1)
      ∧ (0 ≤ (cascadeHueComponents 45).2.1 ∧ (cascadeHueComponents 45).2.1 ≤ 1)
      ∧ (0 ≤ (cascadeHueComponents 45).2.2 ∧ (cascadeHueComponents 45).2.2 ≤ 1)) :=
  ⟨by norm_num, by norm_num, hueMapper_weights.1 45 (by norm_num) (by norm_num)⟩

/-- Clamping is idempotent. -/
lemma clamp_idem (v a b : ℚ) (hab : a ≤ b) : clamp (clamp v a b) a b = clamp v a b := by
  unfold clamp
  have h1 : a ≤ max a (min b v) := le_max_left _ _
  have h2 : max a (min b v) ≤ b := max_le hab (min_le_left _ _)
  rw [min_eq_right h2, max_eq_right h1]

/-- The semitone distance is monotone in the lightness. -/
lemma semitoneDistance_mono (l1 l2 : ℚ) (h : l1 ≤ l2) :
    semitoneDistance l1 ≤ semitoneDistance l2 := by
  unfold semitoneDistance scaleNumericValue clamp
  simp only
  have hmono : min (100 : ℚ) (max 0 (max 0 (min 100 l1)))
      ≤ min (100 : ℚ) (max 0 (max 0 (min 100 l2))) := by
    apply min_le_min (le_refl _)
    apply max_le_max (le_refl _)
    apply max_le_max (le_refl _)
    exact min_le_min (le_refl _) h
  have hfac : (0 : ℚ) ≤ (25 - -25) / (100 - 0) := by norm_num
  nlinarith

/-- C4: the frequency computed from lightness is monotonically non-decreasing,
and lightness 0 and 100 map exactly to `440 * 2 ^ (-25/12)` and
`440 * 2 ^ (25/12)` respectively. -/
theorem lightness_frequency_monotone_bounds :
    (∀ l1 l2 : ℚ, l1 ≤ l2 → frequencyOfLightness l1 ≤ frequencyOfLightness l2)
    ∧ frequencyOfLightness 0 = 440 * (2 : ℝ) ^ ((-25 : ℝ) / 12)
    ∧ frequencyOfLightness 100 = 440 * (2 : ℝ) ^ ((25 : ℝ) / 12) := by
  refine ⟨?_, ?_, ?_⟩
  · intro l1 l2 h
    unfold frequencyOfLightness
    have hsd : semitoneDistance l1 ≤ semitoneDistance l2 := semitoneDistance_mono l1 l2 h
    have hexp : ((semitoneDistance l1 : ℝ)) / 12 ≤ ((semitoneDistance l2 : ℝ)) / 12 := by
      have : ((semitoneDistance l1 : ℝ)) ≤ ((semitoneDistance l2 : ℝ)) := by
        exact_mod_cast hsd
      linarith
    have hpow : (2 : ℝ) ^ ((semitoneDistance l1 : ℝ) / 12)
        ≤ (2 : ℝ) ^ ((semitoneDistance l2 : ℝ) / 12) :=
      (Real.rpow_le_rpow_left_iff one_lt_two).2 hexp
    have h440 : (0 : ℝ) ≤ 440 := by norm_num
    exact mul_le_mul_of_nonneg_right hpow h440
  · have h0 : semitoneDistance 0 = -25 := by
      norm_num [semitoneDistance, scaleNumericValue, clamp]
    unfold frequencyOfLightness
    rw [h0]
    push_cast
    ring
  · have h100 : semitoneDistance 100 = 25 := by
      norm_num [semitoneDistance, scaleNumericValue, clamp]
    unfold frequencyOfLightness
    rw [h100]
    push_cast
    ring

/-- Witness for C4 at the concrete lightness pair (30, 60). -/
theorem lightness_frequency_monotone_bounds_witness :
    (30 : ℚ) ≤ 60 ∧ frequencyOfLightness 30 ≤ frequencyOfLightness 60 :=
  ⟨by norm_num, lightness_frequency_monotone_bounds.1 30 60 (by norm_num)⟩

/-- C6 (code evaluation at the failing input): `setWetDryBalance` writes
`wetGain * (0.5 * π)` and `(1 - wetGain) * (0.5 * π)` — a linear scale by
`π/2` — on both nodes.  At intensity 1 the written wet gain is `π/2`, which
differs from the value 1 produced by both spec-permitted curves (the identity
and the quarter-turn sine curve), even though the source comments promise an
equal-power crossfade with unit total gain. -/
theorem setWetDryBalance_linear_not_unit_curve :
    (∀ (w d : AParam ℝ) (g t : ℚ),
      (setWetDryBalance w d g t).1 = w.setValueAtTime ((g : ℝ) * (0.5 * Real.pi)) t
      ∧ (setWetDryBalance w d g t).2 = d.setValueAtTime ((1 - (g : ℝ)) * (0.5 * Real.pi)) t)
    ∧ (setWetDryBalance ⟨1, []⟩ ⟨1, []⟩ 1 0).1.events
        = [AEvent.setValue (((1 : ℚ) : ℝ) * (0.5 * Real.pi)) 0]
    ∧ ((1 : ℚ) : ℝ) * (0.5 * Real.pi) ≠ 1
    ∧ Real.sin (((1 : ℚ) : ℝ) * (0.5 * Real.pi)) = 1 := by
  refine ⟨fun w d g t => ⟨rfl, rfl⟩, rfl, ?_, ?_⟩
  · intro hcontra
    rw [Rat.cast_one, one_mul] at hcontra
    have hpi := Real.pi_gt_three
    nlinarith
  · rw [Rat.cast_one, one_mul, show (0.5 * Real.pi) = Real.pi / 2 by ring]
    exact Real.sin_pi_div_two

/-- C9 (counterexample): `changeHue` wraps its input with the JavaScript
remainder instead of saturating it into the documented domain: input 400
is stored as hue 40, while clamping 400 into [0, 360] gives 360, and the
audible waveform weights at hue 40 differ from those at the clamped hue. -/
theorem changeHue_wraps_counterexample :
    ((SoundManager.mkInitial 0 0 0).changeHue 400).hue = 40
    ∧ clamp 400 0 360 = 360
    ∧ (40 : ℚ) ≠ 360
    ∧ cascadeHueComponents 40 ≠ cascadeHueComponents (clamp 400 0 360) := by
  refine ⟨?_, by norm_num [clamp], by norm_num, ?_⟩
  · have : ((SoundManager.mkInitial 0 0 0).changeHue 400).hue = jsRem 400 360 := by
      simp [SoundManager.changeHue, SoundManager.cascadeHueToAudioNodes, SoundManager.mkInitial]
    rw [this]
    norm_num [jsRem, ratTrunc]
  · rw [show clamp 400 0 360 = 360 by norm_num [clamp]]
    norm_num [cascadeHueComponents, jsRem, ratTrunc, scaleNumericValue]

/-- C9 (amended): every public numeric setter is total; `changeVolume`,
`changeReverbIntensity`, `changeLfoIntensity`, `changeLfoFrequency` and
`changeChordDuration` clamp their input into the documented domain before
storing it; `changeSaturation` and `changeLightness` store the raw value but
their audible effect factors through `clamp` into [0, 100]; `changeHue`
wraps its input by the JavaScript remainder modulo 360 instead of clamping. -/
theorem setters_clamp_amended (s : SoundManager) (v : ℚ) :
    ((s.changeVolume v).overallVolumeGain = clamp v 0 1)
    ∧ ((s.changeReverbIntensity v).reverbGain = clamp v 0 1)
    ∧ ((s.changeLfoIntensity v).lfoGain = clamp v 0 1)
    ∧ ((s.changeLfoFrequency v).lfoFrequency = clamp v 1 30)
    ∧ ((s.changeChordDuration v).chordDurationSeconds = clamp v (1/4) 10)
    ∧ ((s.changeHue v).hue = jsRem v 360)
    ∧ ((s.changeSaturation v).saturation = v
        ∧ clamp (s.changeSaturation v).saturation 0 100 = clamp v 0 100)
    ∧ ((s.changeLightness v).lightness = v
        ∧ semitoneDistance (s.changeLightness v).lightness = semitoneDistance (clamp v 0 100)) := by
  refine ⟨?_, ?_, ?_, ?_, rfl, ?_, ⟨?_, ?_⟩, ⟨?_, ?_⟩⟩
  · rcases hn : s.overallVolumeGainNode with _ | node <;>
      simp [SoundManager.changeVolume, hn] <;> split_ifs <;> simp
  · rcases hn : s.reverbChain with _ | chain <;>
      simp [SoundManager.changeReverbIntensity, hn] <;> split_ifs <;> simp
  · rcases hn : s.lfoChain with _ | chain <;>
      simp [SoundManager.changeLfoIntensity, hn] <;> split_ifs <;> simp
  · rcases hn : s.lfoChain with _ | chain <;>
      simp [SoundManager.changeLfoFrequency, hn] <;> split_ifs <;> simp
  · by_cases h : s.hasAudioContext <;>
      simp [SoundManager.changeHue, SoundManager.cascadeHueToAudioNodes, h]
  · by_cases h : s.hasAudioContext <;>
      simp [SoundManager.changeSaturation, SoundManager.cascadeSaturationToAudioNodes, h]
  · by_cases h : s.hasAudioContext <;>
      simp [SoundManager.changeSaturation, SoundManager.cascadeSaturationToAudioNodes, h]
  · by_cases h : s.hasAudioContext <;>
      simp [SoundManager.changeLightness, SoundManager.cascadeLightnessToAudioNodes, h]
  · have hl : (s.changeLightness v).lightness = v := by
      by_cases h : s.hasAudioContext <;>
        simp [SoundManager.changeLightness, SoundManager.cascadeLightnessToAudioNodes, h]
    rw [hl]
    unfold semitoneDistance
    rw [clamp_idem v 0 100 (by norm_num)]

/-- The scheduling loop advances the time cursor by one chord-slot length per
chord. -/
lemma sched_foldl_time (dur decay rest : ℚ) (l : List ChordDef) (acc : SchedAcc) :
    (l.foldl (scheduleChordStep dur decay rest) acc).time
      = acc.time + l.length * (dur + decay + rest) := by
  induction l generalizing acc with
  | nil => simp
  | cons c l ih =>
    rw [List.foldl_cons, ih]
    simp only [scheduleChordStep, List.length_cons]
    push_cast
    ring

/-- The scheduling loop appends exactly one gate ramp per chord, at the
successive chord start times. -/
lemma sched_foldl_rampTimes (dur decay rest : ℚ) (l : List ChordDef) (acc : SchedAcc) :
    (l.foldl (scheduleChordStep dur decay rest) acc).gate.rampTimes
      = acc.gate.rampTimes ++ (List.range l.length).map
          (fun k : ℕ => acc.time + (k : ℚ) * (dur + decay + rest)) := by
  induction l generalizing acc with
  | nil => simp
  | cons c l ih =>
    rw [List.foldl_cons, ih]
    have hgate : (scheduleChordStep dur decay rest acc c).gate.rampTimes
        = acc.gate.rampTimes ++ [acc.time] := by
      simp [scheduleChordStep, AParam.rampTimes, AParam.linearRampToValueAtTime,
        AParam.setTargetAtTime, List.filterMap_append]
    have htime : (scheduleChordStep dur decay rest acc c).time
        = acc.time + (dur + decay + rest) := by
      simp only [scheduleChordStep]
      ring
    rw [hgate, htime, List.append_assoc]
    congr 1
    simp only [List.length_cons]
    rw [List.range_succ_eq_map]
    simp only [List.map_cons, Nat.cast_zero, zero_mul, add_zero, List.map_map,
      List.singleton_append]
    congr 1
    apply List.map_congr_left
    intro k hk
    simp only [Function.comp_apply]
    push_cast
    ring

/-- C8: `changeChordDuration` keeps the chord duration inside [1/4, 10], and
every scheduler pass on an enabled state with a positive chord duration never
decreases `nextChordProgressionEndTime`. -/
theorem nextProgressionEndTime_monotone :
    (∀ (s : SoundManager) (d : ℚ),
      (1/4 : ℚ) ≤ (s.changeChordDuration d).chordDurationSeconds
      ∧ (s.changeChordDuration d).chordDurationSeconds ≤ 10)
    ∧ (∀ (s : SoundManager) (i : ℕ),
        s.isChordProgressionEnabled = true → 0 < s.chordDurationSeconds →
        s.nextChordProgressionEndTime
          ≤ (s.queueChordProgression i).1.nextChordProgressionEndTime) := by
  constructor
  · intro s d
    constructor
    · exact le_max_left _ _
    · exact max_le (by norm_num) (min_le_left _ _)
  · intro s i hen hdur
    have hmax : s.nextChordProgressionEndTime
        ≤ max s.nextChordProgressionEndTime s.currentTime := le_max_left _ _
    have hP : (0 : ℚ) ≤ ((selectedChords i).length : ℚ)
        * (s.chordDurationSeconds + s.chordDurationSeconds / 8
           + s.chordDurationSeconds / 16) := by
      apply mul_nonneg (Nat.cast_nonneg _)
      linarith
    simp only [SoundManager.queueChordProgression]
    repeat' split
    all_goals dsimp only
    all_goals try exact le_rfl
    all_goals rw [sched_foldl_time]
    all_goals linarith [hmax, hP]

/-- Witness for C8 at the concrete enabled sample state. -/
theorem nextProgressionEndTime_monotone_witness :
    ((1/4 : ℚ) ≤ (sampleStateOn.changeChordDuration 37).chordDurationSeconds
      ∧ (sampleStateOn.changeChordDuration 37).chordDurationSeconds ≤ 10)
    ∧ (sampleStateOn.isChordProgressionEnabled = true
      ∧ 0 < sampleStateOn.chordDurationSeconds
      ∧ sampleStateOn.nextChordProgressionEndTime
          ≤ (sampleStateOn.queueChordProgression 0).1.nextChordProgressionEndTime) :=
  ⟨nextProgressionEndTime_monotone.1 sampleStateOn 37,
   rfl,
   by norm_num [sampleStateOn, sampleState, SoundManager.mkInitial],
   nextProgressionEndTime_monotone.2 sampleStateOn 0 rfl
     (by norm_num [sampleStateOn, sampleState, SoundManager.mkInitial])⟩

/-- C2: on an initialized graph with chord progression disabled, the next
scheduler pass cancels every pending automation event (timestamp at or after
the current time) on the start/stop gate and on every voice's detune
parameters, snaps the gate to 1 at the current time, resets every voice's
detune to its default chord-free interval (`DefaultSemitones` × 100 cents),
and does not re-arm the lookahead timer. -/
theorem queue_disabled_resets (s : SoundManager) (i : ℕ) (g : AParam ℝ)
    (hgate : s.startStopGainNode = some g)
    (hctx : s.hasAudioContext = true)
    (hinit : s.structureInitialized = true)
    (hdis : s.isChordProgressionEnabled = false) :
    ((s.queueChordProgression i).2 = false)
    ∧ (s.queueChordProgression i).1.startStopGainNode
        = some ⟨g.defaultValue,
            g.events.filter (fun e => decide (e.time < s.currentTime))
              ++ [AEvent.setValue 1 s.currentTime]⟩
    ∧ (s.queueChordProgression i).1.rootFrequencyChain
        = assignWaveformDetune (DefaultSemitones.root * 100) s.currentTime true
            s.rootFrequencyChain
    ∧ (s.queueChordProgression i).1.thirdFrequencyChain
        = assignWaveformDetune (DefaultSemitones.third * 100) s.currentTime true
            s.thirdFrequencyChain
    ∧ (s.queueChordProgression i).1.fifthFrequencyChain
        = assignWaveformDetune (DefaultSemitones.fifth * 100) s.currentTime true
            s.fifthFrequencyChain
    ∧ (s.queueChordProgression i).1.seventhFrequencyChain
        = assignWaveformDetune (DefaultSemitones.seventh * 100) s.currentTime true
            s.seventhFrequencyChain
    ∧ (∀ (d now : ℚ) (c : FrequencyOscillatorChain),
        ((assignWaveformDetuneChain d now true c).detuneParams.square.events
            = c.detuneParams.square.events.filter (fun e => decide (e.time < now))
              ++ [AEvent.setValue d now])
        ∧ ((assignWaveformDetuneChain d now true c).detuneParams.sawtooth.events
            = c.detuneParams.sawtooth.events.filter (fun e => decide (e.time < now))
              ++ [AEvent.setValue d now])
        ∧ ((assignWaveformDetuneChain d now true c).detuneParams.sine.events
            = c.detuneParams.sine.events.filter (fun e => decide (e.time < now))
              ++ [AEvent.setValue d now])
        ∧ (assignWaveformDetuneChain d now true c).frequencyParams = c.frequencyParams
        ∧ (assignWaveformDetuneChain d now true c).oscillatorGains = c.oscillatorGains
        ∧ (assignWaveformDetuneChain d now true c).output = c.output) := by
  refine ⟨?_, ?_, ?_, ?_, ?_, ?_, ?_⟩
  · simp [SoundManager.queueChordProgression, hgate, hctx, hinit, hdis]
  · simp [SoundManager.queueChordProgression, hgate, hctx, hinit, hdis,
      AParam.cancelScheduledValues, AParam.setValueAtTime]
  · simp [SoundManager.queueChordProgression, hgate, hctx, hinit, hdis]
  · simp [SoundManager.queueChordProgression, hgate, hctx, hinit, hdis]
  · simp [SoundManager.queueChordProgression, hgate, hctx, hinit, hdis]
  · simp [SoundManager.queueChordProgression, hgate, hctx, hinit, hdis]
  · intro d now c
    refine ⟨?_, ?_, ?_, rfl, rfl, rfl⟩ <;>
      simp [assignWaveformDetuneChain, WaveformNodes.map,
        AParam.cancelScheduledValues, AParam.setValueAtTime]

/-- Witness for C2 at the concrete disabled sample state. -/
theorem queue_disabled_resets_witness :
    (sampleState.queueChordProgression 0).2 = false
    ∧ (sampleState.queueChordProgression 0).1.startStopGainNode
        = some ⟨1, [AEvent.setValue 1 0]⟩ := by
  have h := queue_disabled_resets sampleState 0 ⟨1, []⟩ rfl rfl rfl rfl
  exact ⟨h.1, by rw [h.2.1]; rfl⟩

/-- A scheduler pass whose lookahead is not yet reached only re-arms the
timer: the state is unchanged. -/
lemma queue_wait_pass (s : SoundManager) (i : ℕ) (g : AParam ℝ)
    (hgate : s.startStopGainNode = some g)
    (hctx : s.hasAudioContext = true)
    (hinit : s.structureInitialized = true)
    (hen : s.isChordProgressionEnabled = true)
    (hdue : s.nextChordProgressionEndTime - 1/4 > s.currentTime) :
    s.queueChordProgression i = (s, true) := by
  simp [SoundManager.queueChordProgression, hgate, hctx, hinit, hen, hdue]
  intro hcon
  exfalso
  linarith

/-- The shape of a scheduler pass that schedules a progression: the new end
marker is the start time plus one chord slot per chord plus the trailing
half-chord rest, and the gate gains exactly one new ramp per chord at the
successive chord start times; the mode, duration and context flags are
unchanged. -/
lemma queue_sched_pass (s : SoundManager) (i : ℕ) (g : AParam ℝ)
    (hgate : s.startStopGainNode = some g)
    (hctx : s.hasAudioContext = true)
    (hinit : s.structureInitialized = true)
    (hen : s.isChordProgressionEnabled = true)
    (hdue : ¬(s.nextChordProgressionEndTime - 1/4 > s.currentTime)) :
    ((s.queueChordProgression i).1.nextChordProgressionEndTime
        = max s.nextChordProgressionEndTime s.currentTime
          + (selectedChords i).length * (s.chordDurationSeconds + s.chordDurationSeconds / 8
            + s.chordDurationSeconds / 16) + s.chordDurationSeconds / 2)
    ∧ (∃ G : AParam ℝ, (s.queueChordProgression i).1.startStopGainNode = some G
        ∧ G.rampTimes = g.rampTimes ++ (List.range (selectedChords i).length).map
            (fun k : ℕ => max s.nextChordProgressionEndTime s.currentTime
              + (k : ℚ) * (s.chordDurationSeconds + s.chordDurationSeconds / 8
                + s.chordDurationSeconds / 16)))
    ∧ (s.queueChordProgression i).1.isChordProgressionEnabled = s.isChordProgressionEnabled
    ∧ (s.queueChordProgression i).1.chordDurationSeconds = s.chordDurationSeconds
    ∧ (s.queueChordProgression i).1.hasAudioContext = s.hasAudioContext
    ∧ (s.queueChordProgression i).1.structureInitialized = s.structureInitialized := by
  refine ⟨?_, ?_, ?_, ?_, ?_, ?_⟩
  · simp only [SoundManager.queueChordProgression, hgate, hctx, hinit, hen]
    simp only [hdue, not_true_eq_false, Bool.true_eq_false, or_self, if_false, ite_false,
      Bool.not_true, if_true, ite_true, not_false_eq_true, if_neg hdue]
    simp [sched_foldl_time]
  · refine ⟨((selectedChords i).foldl
      (scheduleChordStep s.chordDurationSeconds (s.chordDurationSeconds / 8)
        (s.chordDurationSeconds / 16))
      ⟨g, s.rootFrequencyChain, s.thirdFrequencyChain, s.fifthFrequencyChain,
        s.seventhFrequencyChain, max s.nextChordProgressionEndTime s.currentTime⟩).gate,
      ?_, ?_⟩
    · simp only [SoundManager.queueChordProgression, hgate, hctx, hinit, hen]
      simp only [if_neg hdue]
      simp
    · rw [sched_foldl_rampTimes]
  · simp only [SoundManager.queueChordProgression, hgate, hctx, hinit, hen]
    simp only [if_neg hdue]
    simp
  · simp only [SoundManager.queueChordProgression, hgate, hctx, hinit, hen]
    simp only [if_neg hdue]
    simp
  · simp only [SoundManager.queueChordProgression, hgate, hctx, hinit, hen]
    simp only [if_neg hdue]
    simp [hctx]
  · simp only [SoundManager.queueChordProgression, hgate, hctx, hinit, hen]
    simp only [if_neg hdue]
    simp [hinit]

/-- C1: with a 2-second chord duration and a 4-chord progression whose first
chord starts at audio time 0, the scheduling pass records
`4 * (2 + decay + rest) + 1 = 21/2` as the next progression end (decay =
2/8, rest = 2/16, plus the half-duration trailing rest), and on any later
pass every gate ramp scheduled after the first four — in particular the 5th,
the start of the next progression — lies at or after that time, never
earlier. -/
theorem chord_scheduling_fifth_ramp (s : SoundManager) (g : AParam ℝ) (i : ℕ)
    (hgate : s.startStopGainNode = some g)
    (hctx : s.hasAudioContext = true)
    (hinit : s.structureInitialized = true)
    (hramps : g.rampTimes = [])
    (hen : s.isChordProgressionEnabled = true)
    (hdur : s.chordDurationSeconds = 2)
    (hnext : s.nextChordProgressionEndTime = 0)
    (hnow : s.currentTime = 0)
    (hprog : (AllProgressions.getD (i % AllProgressions.length) []).length = 4) :
    ((s.queueChordProgression i).1.nextChordProgressionEndTime = 4 * (2 + 2/8 + 2/16) + 1)
    ∧ (∀ (now2 : ℚ) (j : ℕ) (g2 : AParam ℝ),
        ((({ (s.queueChordProgression i).1 with
            currentTime := now2 }).queueChordProgression j).1.startStopGainNode = some g2) →
        ∀ t ∈ g2.rampTimes.drop 4, 4 * (2 + 2/8 + 2/16) + 1 ≤ t) := by
  have hsel : (selectedChords i).length = 4 := by
    simp only [List.getD_eq_getElem?_getD] at hprog
    simp only [selectedChords, List.getD_eq_getElem?_getD, hprog]
    norm_num
    exact hprog
  have hdue1 : ¬(s.nextChordProgressionEndTime - 1/4 > s.currentTime) := by
    rw [hnext, hnow]; norm_num
  obtain ⟨hend, ⟨G, hG, hGr⟩, hen1, hdur1, hctx1, hinit1⟩ :=
    queue_sched_pass s i g hgate hctx hinit hen hdue1
  have hend21 : (s.queueChordProgression i).1.nextChordProgressionEndTime = 21/2 := by
    rw [hend, hnext, hnow, hdur, hsel]
    norm_num
  have hGlen : G.rampTimes.length = 4 := by
    rw [hGr, hramps, hsel]
    simp
  constructor
  · rw [hend21]; norm_num
  · intro now2 j g2 hg2 t ht
    have hbound : (4 : ℚ) * (2 + 2/8 + 2/16) + 1 = 21/2 := by norm_num
    rw [hbound]
    set s2 : SoundManager := { (s.queueChordProgression i).1 with currentTime := now2 } with hs2
    have hgate2 : s2.startStopGainNode = some G := hG
    have hctx2 : s2.hasAudioContext = true := by rw [hs2]; show _ = _; exact hctx1.trans hctx
    have hinit2 : s2.structureInitialized = true := hinit1.trans hinit
    have hen2 : s2.isChordProgressionEnabled = true := hen1.trans hen
    have hnext2 : s2.nextChordProgressionEndTime = 21/2 := hend21
    have hdur2 : s2.chordDurationSeconds = 2 := hdur1.trans hdur
    by_cases hdue2 : s2.nextChordProgressionEndTime - 1/4 > s2.currentTime
    · -- lookahead not reached: the pass re-arms and schedules nothing
      have hw := queue_wait_pass s2 j G hgate2 hctx2 hinit2 hen2 hdue2
      rw [hw] at hg2
      have hg2G : g2 = G := by
        have := hgate2.symm.trans hg2
        exact (Option.some.injEq _ _ ▸ this).symm
      rw [hg2G] at ht
      rw [List.drop_eq_nil_of_le (le_of_eq hGlen)] at ht
      exact absurd ht (List.not_mem_nil t)
    · obtain ⟨_, ⟨G2, hG2, hG2r⟩, _, _, _, _⟩ :=
        queue_sched_pass s2 j G hgate2 hctx2 hinit2 hen2 hdue2
      have hg2G2 : g2 = G2 := by
        have := hG2.symm.trans hg2
        exact (Option.some.injEq _ _ ▸ this).symm
      rw [hg2G2, hG2r] at ht
      have hdropped : (G.rampTimes ++ (List.range (selectedChords j).length).map
          (fun k : ℕ => max s2.nextChordProgressionEndTime s2.currentTime
            + (k : ℚ) * (s2.chordDurationSeconds + s2.chordDurationSeconds / 8
              + s2.chordDurationSeconds / 16))).drop 4
          = (List.range (selectedChords j).length).map
            (fun k : ℕ => max s2.nextChordProgressionEndTime s2.currentTime
              + (k : ℚ) * (s2.chordDurationSeconds + s2.chordDurationSeconds / 8
                + s2.chordDurationSeconds / 16)) := by
        rw [show (4 : ℕ) = G.rampTimes.length from hGlen.symm]
        exact List.drop_left _ _
      rw [hdropped] at ht
      obtain ⟨k, _, hk⟩ := List.mem_map.1 ht
      have hmax : (21/2 : ℚ) ≤ max s2.nextChordProgressionEndTime s2.currentTime := by
        rw [← hnext2]
        exact le_max_left _ _
      have hkp : (0 : ℚ) ≤ (k : ℚ) * (s2.chordDurationSeconds + s2.chordDurationSeconds / 8
          + s2.chordDurationSeconds / 16) := by
        apply mul_nonneg (Nat.cast_nonneg _)
        rw [hdur2]
        norm_num
      rw [← hk]
      linarith

/-- Witness for C1 at the concrete enabled sample state and progression 0. -/
theorem chord_scheduling_fifth_ramp_witness :
    (AllProgressions.getD (0 % AllProgressions.length) []).length = 4
    ∧ (sampleStateOn.queueChordProgression 0).1.nextChordProgressionEndTime
        = 4 * (2 + 2/8 + 2/16) + 1 :=
  ⟨rfl, (chord_scheduling_fifth_ramp sampleStateOn ⟨1, []⟩ 0 rfl rfl rfl rfl rfl rfl rfl
      rfl rfl).1⟩

/-- Writing a detune value never changes the non-detune parts of a chain. -/
lemma assignDetune_shape (d t : ℚ) (b : Bool) (X : Option FrequencyOscillatorChain) :
    (assignWaveformDetune d t b X).map chainNonDetune = X.map chainNonDetune := by
  cases X with
  | none => rfl
  | some c => simp [assignWaveformDetune, assignWaveformDetuneChain, chainNonDetune]

/-- The scheduling loop never changes the non-detune parts of the root chain. -/
lemma sched_foldl_root_shape (dur decay rest : ℚ) (l : List ChordDef) (acc : SchedAcc) :
    ((l.foldl (scheduleChordStep dur decay rest) acc).root).map chainNonDetune
      = acc.root.map chainNonDetune := by
  induction l generalizing acc with
  | nil => rfl
  | cons c l ih =>
    rw [List.foldl_cons, ih]
    simp [scheduleChordStep, assignDetune_shape]

/-- The scheduling loop never changes the non-detune parts of the third chain. -/
lemma sched_foldl_third_shape (dur decay rest : ℚ) (l : List ChordDef) (acc : SchedAcc) :
    ((l.foldl (scheduleChordStep dur decay rest) acc).third).map chainNonDetune
      = acc.third.map chainNonDetune := by
  induction l generalizing acc with
  | nil => rfl
  | cons c l ih =>
    rw [List.foldl_cons, ih]
    simp [scheduleChordStep, assignDetune_shape]

/-- The scheduling loop never changes the non-detune parts of the fifth chain. -/
lemma sched_foldl_fifth_shape (dur decay rest : ℚ) (l : List ChordDef) (acc : SchedAcc) :
    ((l.foldl (scheduleChordStep dur decay rest) acc).fifth).map chainNonDetune
      = acc.fifth.map chainNonDetune := by
  induction l generalizing acc with
  | nil => rfl
  | cons c l ih =>
    rw [List.foldl_cons, ih]
    simp [scheduleChordStep, assignDetune_shape]

/-- The scheduling loop never changes the non-detune parts of the seventh
chain. -/
lemma sched_foldl_seventh_shape (dur decay rest : ℚ) (l : List ChordDef) (acc : SchedAcc) :
    ((l.foldl (scheduleChordStep dur decay rest) acc).seventh).map chainNonDetune
      = acc.seventh.map chainNonDetune := by
  induction l generalizing acc with
  | nil => rfl
  | cons c l ih =>
    rw [List.foldl_cons, ih]
    simp [scheduleChordStep, assignDetune_shape]

/-- The scheduling loop preserves the existence of the root chain. -/
lemma sched_foldl_root_isSome (dur decay rest : ℚ) (l : List ChordDef) (acc : SchedAcc) :
    ((l.foldl (scheduleChordStep dur decay rest) acc).root).isSome = acc.root.isSome := by
  have h := congrArg Option.isSome (sched_foldl_root_shape dur decay rest l acc)
  simpa using h

/-- The scheduling loop preserves the existence of the third chain. -/
lemma sched_foldl_third_isSome (dur decay rest : ℚ) (l : List ChordDef) (acc : SchedAcc) :
    ((l.foldl (scheduleChordStep dur decay rest) acc).third).isSome = acc.third.isSome := by
  have h := congrArg Option.isSome (sched_foldl_third_shape dur decay rest l acc)
  simpa using h

/-- The scheduling loop preserves the existence of the fifth chain. -/
lemma sched_foldl_fifth_isSome (dur decay rest : ℚ) (l : List ChordDef) (acc : SchedAcc) :
    ((l.foldl (scheduleChordStep dur decay rest) acc).fifth).isSome = acc.fifth.isSome := by
  have h := congrArg Option.isSome (sched_foldl_fifth_shape dur decay rest l acc)
  simpa using h

/-- The scheduling loop preserves the existence of the seventh chain. -/
lemma sched_foldl_seventh_isSome (dur decay rest : ℚ) (l : List ChordDef) (acc : SchedAcc) :
    ((l.foldl (scheduleChordStep dur decay rest) acc).seventh).isSome = acc.seventh.isSome := by
  have h := congrArg Option.isSome (sched_foldl_seventh_shape dur decay rest l acc)
  simpa using h

/-- A scheduler pass never touches the LFO chain, the reverb chain, the
overall volume node, the running flag, the clock, or the stored parameter
fields. -/
lemma queue_fst_misc (s : SoundManager) (i : ℕ) :
    ((s.queueChordProgression i).1).contextRunning = s.contextRunning
    ∧ ((s.queueChordProgression i).1).lfoChain = s.lfoChain
    ∧ ((s.queueChordProgression i).1).reverbChain = s.reverbChain
    ∧ ((s.queueChordProgression i).1).overallVolumeGainNode = s.overallVolumeGainNode
    ∧ ((s.queueChordProgression i).1).currentTime = s.currentTime
    ∧ ((s.queueChordProgression i).1).hue = s.hue
    ∧ ((s.queueChordProgression i).1).saturation = s.saturation
    ∧ ((s.queueChordProgression i).1).lightness = s.lightness
    ∧ ((s.queueChordProgression i).1).overallVolumeGain = s.overallVolumeGain
    ∧ ((s.queueChordProgression i).1).lfoFrequency = s.lfoFrequency
    ∧ ((s.queueChordProgression i).1).lfoGain = s.lfoGain
    ∧ ((s.queueChordProgression i).1).reverbGain = s.reverbGain := by
  cases hg : s.startStopGainNode with
  | none => simp [SoundManager.queueChordProgression, hg]
  | some g =>
    simp only [SoundManager.queueChordProgression, hg]
    repeat' split
    all_goals exact ⟨rfl, rfl, rfl, rfl, rfl, rfl, rfl, rfl, rfl, rfl, rfl, rfl⟩

/-- A scheduler pass never changes the graph topology. -/
lemma queue_fst_topology (s : SoundManager) (i : ℕ) :
    ((s.queueChordProgression i).1).topology = s.topology := by
  cases hg : s.startStopGainNode with
  | none => simp [SoundManager.queueChordProgression, hg]
  | some g =>
    simp only [SoundManager.queueChordProgression, hg]
    repeat' split
    all_goals try rfl
    all_goals
      simp [SoundManager.topology, assignWaveformDetune, hg,
        sched_foldl_root_isSome, sched_foldl_third_isSome,
        sched_foldl_fifth_isSome, sched_foldl_seventh_isSome]

/-- A scheduler pass never changes the non-detune parts of the four chains. -/
lemma queue_fst_chain_shapes (s : SoundManager) (i : ℕ) :
    (((s.queueChordProgression i).1).rootFrequencyChain.map chainNonDetune
        = s.rootFrequencyChain.map chainNonDetune)
    ∧ (((s.queueChordProgression i).1).thirdFrequencyChain.map chainNonDetune
        = s.thirdFrequencyChain.map chainNonDetune)
    ∧ (((s.queueChordProgression i).1).fifthFrequencyChain.map chainNonDetune
        = s.fifthFrequencyChain.map chainNonDetune)
    ∧ (((s.queueChordProgression i).1).seventhFrequencyChain.map chainNonDetune
        = s.seventhFrequencyChain.map chainNonDetune) := by
  cases hg : s.startStopGainNode with
  | none => simp [SoundManager.queueChordProgression, hg]
  | some g =>
    simp only [SoundManager.queueChordProgression, hg]
    repeat' split
    all_goals refine ⟨?_, ?_, ?_, ?_⟩
    all_goals try rfl
    all_goals
      simp [assignDetune_shape, sched_foldl_root_shape, sched_foldl_third_shape,
        sched_foldl_fifth_shape, sched_foldl_seventh_shape]

/-- The hue cascade never changes the audio-context flag. -/
lemma cascadeHue_hasCtx (s : SoundManager) :
    (s.cascadeHueToAudioNodes).hasAudioContext = s.hasAudioContext := by
  unfold SoundManager.cascadeHueToAudioNodes
  split <;> rfl

/-- The lightness cascade never changes the audio-context flag. -/
lemma cascadeLightness_hasCtx (s : SoundManager) :
    (s.cascadeLightnessToAudioNodes).hasAudioContext = s.hasAudioContext := by
  unfold SoundManager.cascadeLightnessToAudioNodes
  split <;> rfl

/-- The saturation cascade never changes the audio-context flag. -/
lemma cascadeSaturation_hasCtx (s : SoundManager) :
    (s.cascadeSaturationToAudioNodes).hasAudioContext = s.hasAudioContext := by
  unfold SoundManager.cascadeSaturationToAudioNodes
  split <;> rfl

/-- Structure initialization keeps an existing audio context. -/
lemma init_hasCtx_true (s : SoundManager) (h : s.hasAudioContext = true) :
    (s.initializeAudioStructure).hasAudioContext = true := by
  unfold SoundManager.initializeAudioStructure
  split
  · exact h
  · simp [h]

/-- After any `play()` call the audio context exists. -/
lemma play_hasCtx (s : SoundManager) (i : ℕ) : (s.play i).hasAudioContext = true := by
  have hqc : ∀ (t : SoundManager) (j : ℕ),
      ((t.queueChordProgression j).1).hasAudioContext = t.hasAudioContext :=
    fun t j => congrArg GraphTopology.hasAudioContext (queue_fst_topology t j)
  unfold SoundManager.play
  rw [hqc]
  by_cases h : s.hasAudioContext
  · simp [h]
  · simp [h, cascadeHue_hasCtx, cascadeLightness_hasCtx, cascadeSaturation_hasCtx]
    exact init_hasCtx_true _ rfl

/-- C7: a second `play()` call changes no graph topology — it creates no new
oscillators, gain nodes, voices or connections (graph construction is guarded
by `structureInitialized` and runs at most once) — and amounts to resuming the
context and re-running one scheduler check. -/
theorem play_idempotent_topology (s : SoundManager) (i j : ℕ) :
    (((s.play i).play j).topology = (s.play i).topology)
    ∧ (((s.play i).play j).nodesCreated = (s.play i).nodesCreated)
    ∧ (((s.play i).play j).connectionsCreated = (s.play i).connectionsCreated)
    ∧ (((s.play i).play j).contextRunning = true)
    ∧ ((s.play i).play j
        = (({ (s.play i) with contextRunning := true }).queueChordProgression j).1)
    ∧ (∀ t : SoundManager, t.structureInitialized = true →
        t.initializeAudioStructure = t) := by
  have hctx : (s.play i).hasAudioContext = true := play_hasCtx s i
  set s1 := s.play i with hs1
  have heq : s1.play j = (({ s1 with contextRunning := true }).queueChordProgression j).1 := by
    unfold SoundManager.play
    simp [hctx]
  have htop : (s1.play j).topology = s1.topology := by
    rw [heq, queue_fst_topology]
    rfl
  refine ⟨htop, ?_, ?_, ?_, heq, ?_⟩
  · exact congrArg GraphTopology.nodesCreated htop
  · exact congrArg GraphTopology.connectionsCreated htop
  · rw [heq, (queue_fst_misc _ j).1]
  · intro t ht
    simp [SoundManager.initializeAudioStructure, ht]

/-- Witness for C7: the guard of graph construction at the concrete
initialized state. -/
theorem play_idempotent_topology_witness :
    sampleState.structureInitialized = true
    ∧ sampleState.initializeAudioStructure = sampleState :=
  ⟨rfl, (play_idempotent_topology sampleState 0 0).2.2.2.2.2 sampleState rfl⟩

/-- C10: parameter values stored before the first `play()` are not lost: the
graph built by the first `play()` carries the stored volume on the overall
volume gain node, the stored LFO frequency and intensity and the stored
reverb intensity on the LFO/reverb wet-dry stages (through the code's
`wetGain * π/2` scaling), the stored hue weights on every waveform gain, the
stored lightness frequency on the oscillators, and the stored (clamped)
saturation on the chord voices' output gains. -/
theorem play_reflects_stored_parameters (s : SoundManager) (i : ℕ)
    (hctx : s.hasAudioContext = false)
    (hinit : s.structureInitialized = false) :
    ((s.play i).overallVolumeGainNode
        = some ⟨1, [AEvent.setValue (s.overallVolumeGain : ℝ) s.currentTime]⟩)
    ∧ (∃ lc, (s.play i).lfoChain = some lc
        ∧ lc.oscFrequency.events = [AEvent.setValue (s.lfoFrequency : ℝ) s.currentTime]
        ∧ lc.oscillatorGain.events
            = [AEvent.setValue ((s.lfoGain : ℝ) * (0.5 * Real.pi)) s.currentTime]
        ∧ lc.constantGain.events
            = [AEvent.setValue ((1 - (s.lfoGain : ℝ)) * (0.5 * Real.pi)) s.currentTime])
    ∧ (∃ rc, (s.play i).reverbChain = some rc
        ∧ rc.wetGain.events
            = [AEvent.setValue ((s.reverbGain : ℝ) * (0.5 * Real.pi)) s.currentTime]
        ∧ rc.dryGain.events
            = [AEvent.setValue ((1 - (s.reverbGain : ℝ)) * (0.5 * Real.pi)) s.currentTime])
    ∧ (∃ c, (s.play i).rootFrequencyChain = some c
        ∧ c.oscillatorGains.square.lastScheduledValue = some (cascadeHueComponents s.hue).1
        ∧ c.oscillatorGains.sawtooth.lastScheduledValue = some (cascadeHueComponents s.hue).2.1
        ∧ c.oscillatorGains.sine.lastScheduledValue = some (cascadeHueComponents s.hue).2.2
        ∧ c.frequencyParams.square.lastScheduledValue = some (frequencyOfLightness s.lightness))
    ∧ (∃ c, (s.play i).thirdFrequencyChain = some c
        ∧ c.output.lastScheduledValue = some (clamp s.saturation 0 100 / 100))
    ∧ (∃ c, (s.play i).fifthFrequencyChain = some c
        ∧ c.output.lastScheduledValue = some (clamp s.saturation 0 100 / 100))
    ∧ (∃ c, (s.play i).seventhFrequencyChain = some c
        ∧ c.output.lastScheduledValue = some (clamp s.saturation 0 100 / 100)) := by
  have hcond : ¬s.hasAudioContext := by simp [hctx]
  set PIPE : SoundManager := ({ s with hasAudioContext := true } : SoundManager).initializeAudioStructure.cascadeHueToAudioNodes.cascadeLightnessToAudioNodes.cascadeSaturationToAudioNodes with hPIPE
  set PRE : SoundManager := { PIPE with oscillatorsStarted := true, contextRunning := true } with hPRE
  have hplay : s.play i = (PRE.queueChordProgression i).1 := by
    rw [hPRE, hPIPE]
    simp only [SoundManager.play]
    rw [if_pos hcond]
  rw [hplay]
  refine ⟨?_, ?_, ?_, ?_, ?_, ?_, ?_⟩
  · rw [(queue_fst_misc PRE i).2.2.2.1]
    rw [show PRE.overallVolumeGainNode = PIPE.overallVolumeGainNode from rfl, hPIPE]
    simp [SoundManager.initializeAudioStructure, hinit, SoundManager.cascadeHueToAudioNodes,
      SoundManager.cascadeLightnessToAudioNodes, SoundManager.cascadeSaturationToAudioNodes,
      AParam.setValueAtTime]
  · rw [(queue_fst_misc PRE i).2.1]
    rw [show PRE.lfoChain = PIPE.lfoChain from rfl, hPIPE]
    simp [SoundManager.initializeAudioStructure, hinit, SoundManager.cascadeHueToAudioNodes,
      SoundManager.cascadeLightnessToAudioNodes, SoundManager.cascadeSaturationToAudioNodes,
      createLfoStructure, setWetDryBalance, AParam.setValueAtTime]
  · rw [(queue_fst_misc PRE i).2.2.1]
    rw [show PRE.reverbChain = PIPE.reverbChain from rfl, hPIPE]
    simp [SoundManager.initializeAudioStructure, hinit, SoundManager.cascadeHueToAudioNodes,
      SoundManager.cascadeLightnessToAudioNodes, SoundManager.cascadeSaturationToAudioNodes,
      createReverbStructure, setWetDryBalance, AParam.setValueAtTime]
  · have hsh := (queue_fst_chain_shapes PRE i).1
    rw [show PRE.rootFrequencyChain = PIPE.rootFrequencyChain from rfl, hPIPE] at hsh
    simp [SoundManager.initializeAudioStructure, hinit, SoundManager.cascadeHueToAudioNodes,
      SoundManager.cascadeLightnessToAudioNodes, SoundManager.cascadeSaturationToAudioNodes,
      createOscillatorStructure, assignWaveformGains, assignWaveformGainsChain,
      assignWaveformFrequency, assignWaveformFrequencyChain, AParam.setValueAtTime,
      freshGainParam, freshDetuneParam, WaveformNodes.map, chainNonDetune] at hsh
    obtain ⟨a, ha, hf, hg, ho⟩ := hsh
    refine ⟨a, ha, ?_, ?_, ?_, ?_⟩
    · rw [hg]; rfl
    · rw [hg]; rfl
    · rw [hg]; rfl
    · rw [hf]; rfl
  · have hsh := (queue_fst_chain_shapes PRE i).2.1
    rw [show PRE.thirdFrequencyChain = PIPE.thirdFrequencyChain from rfl, hPIPE] at hsh
    simp [SoundManager.initializeAudioStructure, hinit, SoundManager.cascadeHueToAudioNodes,
      SoundManager.cascadeLightnessToAudioNodes, SoundManager.cascadeSaturationToAudioNodes,
      createOscillatorStructure, assignWaveformGains, assignWaveformGainsChain,
      assignWaveformFrequency, assignWaveformFrequencyChain, AParam.setValueAtTime,
      freshGainParam, freshDetuneParam, WaveformNodes.map, chainNonDetune] at hsh
    obtain ⟨a, ha, hf, hg, ho⟩ := hsh
    exact ⟨a, ha, by rw [ho]; rfl⟩
  · have hsh := (queue_fst_chain_shapes PRE i).2.2.1
    rw [show PRE.fifthFrequencyChain = PIPE.fifthFrequencyChain from rfl, hPIPE] at hsh
    simp [SoundManager.initializeAudioStructure, hinit, SoundManager.cascadeHueToAudioNodes,
      SoundManager.cascadeLightnessToAudioNodes, SoundManager.cascadeSaturationToAudioNodes,
      createOscillatorStructure, assignWaveformGains, assignWaveformGainsChain,
      assignWaveformFrequency, assignWaveformFrequencyChain, AParam.setValueAtTime,
      freshGainParam, freshDetuneParam, WaveformNodes.map, chainNonDetune] at hsh
    obtain ⟨a, ha, hf, hg, ho⟩ := hsh
    exact ⟨a, ha, by rw [ho]; rfl⟩
  · have hsh := (queue_fst_chain_shapes PRE i).2.2.2
    rw [show PRE.seventhFrequencyChain = PIPE.seventhFrequencyChain from rfl, hPIPE] at hsh
    simp [SoundManager.initializeAudioStructure, hinit, SoundManager.cascadeHueToAudioNodes,
      SoundManager.cascadeLightnessToAudioNodes, SoundManager.cascadeSaturationToAudioNodes,
      createOscillatorStructure, assignWaveformGains, assignWaveformGainsChain,
      assignWaveformFrequency, assignWaveformFrequencyChain, AParam.setValueAtTime,
      freshGainParam, freshDetuneParam, WaveformNodes.map, chainNonDetune] at hsh
    obtain ⟨a, ha, hf, hg, ho⟩ := hsh
    exact ⟨a, ha, by rw [ho]; rfl⟩

/-- Witness for C10 at a concrete un-played state: the default stored volume
1/10 lands on the volume node built by the first `play()`. -/
theorem play_reflects_stored_parameters_witness :
    (SoundManager.mkInitial 300 50 40).hasAudioContext = false
    ∧ (SoundManager.mkInitial 300 50 40).structureInitialized = false
    ∧ ((SoundManager.mkInitial 300 50 40).play 0).overallVolumeGainNode
        = some ⟨1, [AEvent.setValue ((1/10 : ℚ) : ℝ) 0]⟩ :=
  ⟨rfl, rfl,
   (play_reflects_stored_parameters (SoundManager.mkInitial 300 50 40) 0 rfl rfl).1⟩

end HexGrid
